import Mathlib

/-!
Shallow embedding of `oauth2-http-client` (Rust).

Source layout:
* `src/lib.rs` — the `HttpInterface` trait (`perform : HttpRequest → Result<HttpResponse, Error>`)
  and the `OAuth2Client<HI>` adapter whose `call` clones the held interface, builds an async
  block, awaits `perform` once with the `?` operator and returns `Ok(result)`.
* `src/test.rs` — the reference transport `HttpClient::Reqwest` whose `perform` copies the
  request's method, URI, headers and body onto the outbound wire request, sends it, and
  rebuilds an `HttpResponse` from the wire status, headers and body.

Modelling decisions:
* `oauth2::HttpRequest` is `http::Request<Vec<u8>>`: method token, URI, an ordered list of
  header name/value pairs (values are opaque byte sequences), and a body of bytes.
  Bytes are modelled as `Nat`, header names/the method/the URI as `String`.
* Asynchrony: the awaited future of `perform` is modelled by its resolved value, so a
  transport is a function `HttpRequest → Except ε HttpResponse`.  Where the claims are about
  how often and with which argument `perform` is invoked, or about interleaving with a
  shared stateful handle, the async block is translated as an explicit state-passing
  function (`callSt`) instantiated with a logging or a stateful transport.
* `Clone::clone` of the transport handle duplicates the handle: the duplicate denotes the
  same transport behaviour, so `HttpInterface.clone` is the identity on the denotation.
* The `?` operator in `call` converts the error with `From`; since the adapter's associated
  error type is the transport's own (`type Error = HI::Error;`), the conversion is the
  identity, and `?` is translated as the `Except.error` branch of a `match`.
-/

/-- HTTP request as used by the adapter: `http::Request<Vec<u8>>`. -/
structure HttpRequest where
  method : String
  uri : String
  headers : List (String × List Nat)
  body : List Nat
deriving Repr, DecidableEq

/-- HTTP response as used by the adapter: `http::Response<Vec<u8>>`. -/
structure HttpResponse where
  status : Nat
  headers : List (String × List Nat)
  body : List Nat
deriving Repr, DecidableEq

/-- the `HttpInterface` trait of `src/lib.rs`: one operation
`perform(&self, req: HttpRequest) -> Result<HttpResponse, Self::Error>`,
with the awaited future replaced by its resolved value. -/
structure HttpInterface (ε : Type) where
  perform : HttpRequest → Except ε HttpResponse

/-- duplication of the transport handle (`self.interface.clone()` in `call`):
the clone denotes the same transport behaviour. -/
def HttpInterface.clone {ε : Type} (i : HttpInterface ε) : HttpInterface ε := i

/-- the `OAuth2Client<HI>` adapter struct of `src/lib.rs`: it stores exactly one field,
the wrapped interface. -/
structure OAuth2Client (ε : Type) where
  interface : HttpInterface ε

/-- `OAuth2Client::new(interface)` — `Self { interface }`. -/
def OAuth2Client.new {ε : Type} (interface : HttpInterface ε) : OAuth2Client ε :=
  { interface := interface }

/-- body of the async block built by `call`, as a function of the captured clone:
`let result = interface.perform(request).await?; Ok(result)`. -/
def futureBody {ε : Type} (interface : HttpInterface ε) (request : HttpRequest) :
    Except ε HttpResponse :=
  match interface.perform request with
  | Except.error e => Except.error e
  | Except.ok result => Except.ok result

/-- `OAuth2Client::call` of `src/lib.rs` lines 149–155:
`let interface = self.interface.clone(); Box::pin(async move { ... })`,
with the returned future replaced by its resolved value. -/
def OAuth2Client.call {ε : Type} (c : OAuth2Client ε) (request : HttpRequest) :
    Except ε HttpResponse :=
  let interface := c.interface.clone
  futureBody interface request

/-- helper: `futureBody` forwards exactly what `perform` produced. -/
theorem futureBody_eq_perform {ε : Type} (i : HttpInterface ε) (R : HttpRequest) :
    futureBody i R = i.perform R := by
  unfold futureBody
  cases i.perform R <;> rfl

/-- helper: the resolved value of `call` is exactly the resolved value of `perform`
on the cloned (identically behaving) handle. -/
theorem call_eq_perform {ε : Type} (c : OAuth2Client ε) (R : HttpRequest) :
    c.call R = c.interface.perform R := by
  unfold OAuth2Client.call HttpInterface.clone
  exact futureBody_eq_perform c.interface R

/-- C1: if the transport's `perform R` resolves to an error `e`, then `call R` resolves to
exactly that error — never to a response, with no swallowing or semantic translation
(the adapter's error type is the transport's own error type `ε`). -/
theorem call_propagates_error {ε : Type} (i : HttpInterface ε) (R : HttpRequest) (e : ε)
    (h : i.perform R = Except.error e) :
    (OAuth2Client.new i).call R = Except.error e := by
  rw [call_eq_perform]
  exact h

/-- sample request used by the concrete witnesses. -/
def sampleReq : HttpRequest :=
  { method := "POST", uri := "https://auth.example/device",
    headers := [("accept", [42])], body := [1, 2, 3] }

/-- transport that fails on every request, used by the C1 witness. -/
def failingInterface : HttpInterface String :=
  { perform := fun _ => Except.error "connection refused" }

/-- C1 witness: a concrete transport error is surfaced verbatim by `call`. -/
theorem call_propagates_error_witness :
    (OAuth2Client.new failingInterface).call sampleReq = Except.error "connection refused" :=
  call_propagates_error failingInterface sampleReq "connection refused" rfl

/-- C2: if the transport's `perform R` resolves to a response `resp`, then `call R` resolves
to `Ok` of exactly that response — same status, headers and body, whatever the status value
(in particular a 500 is forwarded as a response, not turned into an error). -/
theorem call_forwards_response {ε : Type} (i : HttpInterface ε) (R : HttpRequest)
    (resp : HttpResponse) (h : i.perform R = Except.ok resp) :
    (OAuth2Client.new i).call R = Except.ok resp := by
  rw [call_eq_perform]
  exact h

/-- response with status 500 and empty body, used by the C2 witness. -/
def serverErrorResp : HttpResponse :=
  { status := 500, headers := [], body := [] }

/-- transport that answers every request with status 500, used by the C2 witness. -/
def status500Interface : HttpInterface String :=
  { perform := fun _ => Except.ok serverErrorResp }

/-- C2 witness: a 500 response with empty body is forwarded by `call` as `Ok`, not as an
error. -/
theorem call_forwards_response_witness :
    (OAuth2Client.new status500Interface).call sampleReq = Except.ok serverErrorResp ∧
      serverErrorResp.status = 500 ∧ serverErrorResp.body = [] :=
  ⟨call_forwards_response status500Interface sampleReq serverErrorResp rfl, rfl, rfl⟩

/-- the async block of `call` translated with an explicit stateful transport: the shared
handle's hidden state (connection pool, instrumentation log, …) is threaded as `s`.
The block awaits the transport once with `?` and returns `Ok` of the result. -/
def callSt {ε σ : Type} (performSt : HttpRequest → σ → Except ε HttpResponse × σ)
    (request : HttpRequest) (s : σ) : Except ε HttpResponse × σ :=
  match performSt request s with
  | (Except.error e, s2) => (Except.error e, s2)
  | (Except.ok result, s2) => (Except.ok result, s2)

/-- instrumented transport: behaves like `i.perform` and records every request it is
invoked with, in invocation order. -/
def performLogged {ε : Type} (i : HttpInterface ε) (request : HttpRequest)
    (log : List HttpRequest) : Except ε HttpResponse × List HttpRequest :=
  (i.perform request, log ++ [request])

/-- one `call` run against the instrumented transport, starting from the empty log:
first component is the resolved value, second the list of requests `perform` received. -/
def OAuth2Client.callLogged {ε : Type} (c : OAuth2Client ε) (request : HttpRequest) :
    Except ε HttpResponse × List HttpRequest :=
  let interface := c.interface.clone
  callSt (performLogged interface) request []

/-- sequence of `call` invocations sharing one adapter instance and one transport state,
executed in list order (each `call` body is `callSt`, the translated async block). -/
def runSched {ε σ : Type} (performSt : HttpRequest → σ → Except ε HttpResponse × σ) :
    List HttpRequest → σ → List (Except ε HttpResponse) × σ
  | [], s => ([], s)
  | r :: rs, s =>
    match callSt performSt r s with
    | (x, s2) =>
      let rest := runSched performSt rs s2
      (x :: rest.1, rest.2)

/-- sequence of `call` invocations against the instrumented transport, starting from the
empty log. -/
def OAuth2Client.callsLogged {ε : Type} (c : OAuth2Client ε) (reqs : List HttpRequest) :
    List (Except ε HttpResponse) × List HttpRequest :=
  let interface := c.interface.clone
  runSched (performLogged interface) reqs []

/-- helper: the async block forwards the stateful transport's answer and state unchanged. -/
theorem callSt_eq {ε σ : Type} (performSt : HttpRequest → σ → Except ε HttpResponse × σ)
    (R : HttpRequest) (s : σ) : callSt performSt R s = performSt R s := by
  unfold callSt
  rcases performSt R s with ⟨x, s2⟩
  cases x <;> rfl

/-- helper: a sequence of instrumented calls yields exactly the pointwise `perform`
answers, and appends exactly the scheduled requests to the log. -/
theorem runSched_logged {ε : Type} (i : HttpInterface ε) :
    ∀ (reqs : List HttpRequest) (log : List HttpRequest),
      runSched (performLogged i) reqs log = (reqs.map i.perform, log ++ reqs) := by
  intro reqs
  induction reqs with
  | nil => intro log; simp [runSched]
  | cons r rs ih =>
    intro log
    simp [runSched, callSt_eq, performLogged, ih (log ++ [r]), List.map]

/-- C5: `call` passes the request to `perform` unmodified — the instrumented run shows
`perform` received exactly the request handed to `call` (same method, URI, header
sequence and body, since requests are compared as whole values), and the resolved value
is the one `call` returns. -/
theorem call_request_unmodified {ε : Type} (c : OAuth2Client ε) (R : HttpRequest) :
    (c.callLogged R).2 = [R] ∧ (c.callLogged R).1 = c.call R := by
  unfold OAuth2Client.callLogged
  rw [callSt_eq, call_eq_perform]
  exact ⟨rfl, rfl⟩

/-- C6: one awaited `call` invokes `perform` exactly once (the log of one run has length
one), and two calls with the same request each invoke `perform` anew (the combined log of
the two-call sequence is `[R, R]`): no retry, no caching. -/
theorem call_invokes_perform_once {ε : Type} (c : OAuth2Client ε) (R : HttpRequest) :
    (c.callLogged R).2.length = 1 ∧ (c.callsLogged [R, R]).2 = [R, R] := by
  unfold OAuth2Client.callLogged OAuth2Client.callsLogged
  rw [callSt_eq, runSched_logged]
  exact ⟨rfl, rfl⟩

/-- C7: the adapter is stateless — `new` stores the given interface unchanged and `call`
takes the adapter by shared reference, so the stored interface after any sequence of calls
is the one held after `new`; and each call's outcome in a sequence equals the outcome of
that call alone, independent of any prior call. -/
theorem adapter_stateless {ε : Type} (i : HttpInterface ε) (reqs : List HttpRequest) :
    (OAuth2Client.new i).interface = i ∧
      ((OAuth2Client.new i).callsLogged reqs).1 = reqs.map (OAuth2Client.new i).call := by
  constructor
  · rfl
  · unfold OAuth2Client.callsLogged
    rw [runSched_logged]
    apply List.map_congr_left
    intro r _
    rw [call_eq_perform]
    rfl

/-- C8: `call` clones the adapter's held transport handle before the returned future runs,
and the future's resolved value is a function of that clone and the request alone: any
adapter holding an interface equal to the clone's origin yields the same outcome. -/
theorem call_clones_handle {ε : Type} (c c2 : OAuth2Client ε) (R : HttpRequest)
    (h : c2.interface = c.interface) :
    c.call R = futureBody c.interface.clone R ∧ c2.call R = c.call R := by
  constructor
  · rfl
  · unfold OAuth2Client.call
    rw [h]

/-- C8 witness: at a concrete transport, a second adapter built over the same interface
resolves identically, and `call` is the async body applied to the clone. -/
theorem call_clones_handle_witness :
    (OAuth2Client.new status500Interface).interface = (OAuth2Client.new status500Interface).interface ∧
      ((OAuth2Client.new status500Interface).call sampleReq =
          futureBody (OAuth2Client.new status500Interface).interface.clone sampleReq ∧
        (OAuth2Client.new status500Interface).call sampleReq =
          (OAuth2Client.new status500Interface).call sampleReq) :=
  ⟨rfl, call_clones_handle (OAuth2Client.new status500Interface)
    (OAuth2Client.new status500Interface) sampleReq rfl⟩

/-- C10: for a fixed deterministic transport, `call` is deterministic — two adapters
holding the same interface value resolve the same request to the same result, and two
sequential invocations with the same request inside one instrumented run yield the same
result twice: the adapter adds no nondeterminism or hidden input. -/
theorem call_deterministic {ε : Type} (c c2 : OAuth2Client ε) (R : HttpRequest)
    (h : c2.interface = c.interface) :
    c2.call R = c.call R ∧ (c.callsLogged [R, R]).1 = [c.call R, c.call R] := by
  constructor
  · unfold OAuth2Client.call
    rw [h]
  · unfold OAuth2Client.callsLogged
    rw [runSched_logged, call_eq_perform]
    rfl

/-- C10 witness: at a concrete transport, the two sequential resolved values coincide. -/
theorem call_deterministic_witness :
    (OAuth2Client.new failingInterface).call sampleReq =
        (OAuth2Client.new failingInterface).call sampleReq ∧
      ((OAuth2Client.new failingInterface).callsLogged [sampleReq, sampleReq]).1 =
        [(OAuth2Client.new failingInterface).call sampleReq,
          (OAuth2Client.new failingInterface).call sampleReq] :=
  call_deterministic (OAuth2Client.new failingInterface)
    (OAuth2Client.new failingInterface) sampleReq rfl

/-- outbound wire request assembled by the reference transport of `src/test.rs`:
method, URI and body set on the builder, then headers copied one by one. -/
structure WireRequest where
  method : String
  uri : String
  body : List Nat
  headers : List (String × List Nat)
deriving Repr, DecidableEq

/-- raw network response as the reference transport observes it: `resp.status()`,
`resp.headers().clone()` and `resp.bytes().await` of `src/test.rs`. -/
structure WireResponse where
  status : Nat
  headers : List (String × List Nat)
  body : List Nat
deriving Repr, DecidableEq

/-- the `HttpClient::Reqwest(client)` reference transport of `src/test.rs`: the wrapped
reqwest client handle together with the network it reaches is modelled as one function
from the assembled wire request to the raw network outcome (send or body-read failure
collapse into the single `Except.error` case, as both convert into `MockError`). -/
structure HttpClient where
  net : WireRequest → Except String WireResponse

/-- header-copy loop of `src/test.rs` lines 61–63: `for (name, value) in
request.headers().iter() { req_builder = req_builder.header(name, value); }`,
where reqwest's `header` appends the pair to the builder's header list. -/
def buildWireRequest (request : HttpRequest) : WireRequest :=
  let base : WireRequest :=
    { method := request.method, uri := request.uri, body := request.body, headers := [] }
  request.headers.foldl (fun b nv => { b with headers := b.headers ++ [nv] }) base

/-- response-assembly loop of `src/test.rs` lines 74–81: `Response::builder().status(status)`,
then `for (name, value) in headers.iter() { builder = builder.header(name, value); }`,
then `builder.body(body)`; the builder never fails here because status and headers come
from an already-validated received response. -/
def buildHttpResponse (status : Nat) (headers : List (String × List Nat))
    (body : List Nat) : HttpResponse :=
  let base : HttpResponse := { status := status, headers := [], body := body }
  headers.foldl (fun b nv => { b with headers := b.headers ++ [nv] }) base

/-- `HttpClient::perform` of `src/test.rs` lines 52–84: assemble the wire request, send it,
and rebuild the response from the wire status, headers and body; a network failure is
surfaced as the transport error. -/
def HttpClient.perform (c : HttpClient) (request : HttpRequest) :
    Except String HttpResponse :=
  match c.net (buildWireRequest request) with
  | Except.error e => Except.error e
  | Except.ok resp => Except.ok (buildHttpResponse resp.status resp.headers resp.body)

/-- helper: the wire-request header-copy loop appends exactly the input headers and
touches no other field. -/
theorem buildWireRequest_eq (R : HttpRequest) :
    buildWireRequest R =
      { method := R.method, uri := R.uri, body := R.body, headers := R.headers } := by
  unfold buildWireRequest
  have general : ∀ (hs : List (String × List Nat)) (b : WireRequest),
      hs.foldl (fun b nv => { b with headers := b.headers ++ [nv] }) b =
        { b with headers := b.headers ++ hs } := by
    intro hs
    induction hs with
    | nil => intro b; simp
    | cons nv rest ih =>
      intro b
      rw [List.foldl_cons, ih]
      simp
  rw [general]
  simp

/-- helper: the response-assembly loop appends exactly the wire headers and touches
neither status nor body. -/
theorem buildHttpResponse_eq (status : Nat) (headers : List (String × List Nat))
    (body : List Nat) :
    buildHttpResponse status headers body =
      { status := status, headers := headers, body := body } := by
  unfold buildHttpResponse
  have general : ∀ (hs : List (String × List Nat)) (b : HttpResponse),
      hs.foldl (fun b nv => { b with headers := b.headers ++ [nv] }) b =
        { b with headers := b.headers ++ hs } := by
    intro hs
    induction hs with
    | nil => intro b; simp
    | cons nv rest ih =>
      intro b
      rw [List.foldl_cons, ih]
      simp
  rw [general]
  simp

/-- C3: the reference transport copies every header pair of the request onto the outbound
wire request — the wire header list is exactly the request's — and when the peer answers,
the constructed response carries exactly the peer's header list: nothing dropped, injected
or altered by the transport code itself. -/
theorem perform_header_fidelity (c : HttpClient) (R : HttpRequest) (w : WireResponse)
    (h : c.net (buildWireRequest R) = Except.ok w) :
    (buildWireRequest R).headers = R.headers ∧
      ∃ resp, c.perform R = Except.ok resp ∧ resp.headers = w.headers := by
  constructor
  · rw [buildWireRequest_eq]
  · refine ⟨buildHttpResponse w.status w.headers w.body, ?_, ?_⟩
    · unfold HttpClient.perform
      rw [h]
    · rw [buildHttpResponse_eq]

/-- sample wire response used by the C3 and C4 witnesses. -/
def sampleWire : WireResponse :=
  { status := 200, headers := [("content-type", [106]), ("x-token", [7])],
    body := [9, 8, 7] }

/-- network that answers the sample request's wire form with the sample wire response,
used by the C3 and C4 witnesses. -/
def sampleClient : HttpClient :=
  { net := fun wr => if wr = buildWireRequest sampleReq
      then Except.ok sampleWire else Except.error "unreachable host" }

/-- C3 witness: on a concrete exchange the wire headers equal the request's and the
response headers equal the peer's. -/
theorem perform_header_fidelity_witness :
    sampleClient.net (buildWireRequest sampleReq) = Except.ok sampleWire ∧
      ((buildWireRequest sampleReq).headers = sampleReq.headers ∧
        ∃ resp, sampleClient.perform sampleReq = Except.ok resp ∧
          resp.headers = sampleWire.headers) :=
  ⟨by simp [sampleClient], perform_header_fidelity sampleClient sampleReq sampleWire
    (by simp [sampleClient])⟩

/-- C4: the reference transport sends exactly the request's body bytes — the wire body is
the request body — and when the peer answers, the constructed response's body is exactly
the bytes received from the network layer, byte for byte, with no transformation. -/
theorem perform_body_fidelity (c : HttpClient) (R : HttpRequest) (w : WireResponse)
    (h : c.net (buildWireRequest R) = Except.ok w) :
    (buildWireRequest R).body = R.body ∧
      ∃ resp, c.perform R = Except.ok resp ∧ resp.body = w.body := by
  constructor
  · rw [buildWireRequest_eq]
  · refine ⟨buildHttpResponse w.status w.headers w.body, ?_, ?_⟩
    · unfold HttpClient.perform
      rw [h]
    · rw [buildHttpResponse_eq]

/-- C4 witness: on a concrete exchange the wire body equals the request's body and the
response body equals the peer's bytes. -/
theorem perform_body_fidelity_witness :
    sampleClient.net (buildWireRequest sampleReq) = Except.ok sampleWire ∧
      ((buildWireRequest sampleReq).body = sampleReq.body ∧
        ∃ resp, sampleClient.perform sampleReq = Except.ok resp ∧
          resp.body = sampleWire.body) :=
  ⟨by simp [sampleClient], perform_body_fidelity sampleClient sampleReq sampleWire
    (by simp [sampleClient])⟩

/-- C9: with one shared stateful transport handle (state `σ` threaded through every call,
modelling whatever internal state concurrent calls share) answering each request `r` with
the response `f r` keyed to that request alone, every schedule of call invocations
resolves each call to exactly the response keyed to its own request — no
cross-contamination of request or response data between the interleaved calls. -/
theorem concurrent_calls_no_cross_contamination {σ : Type} {ε : Type}
    (performSt : HttpRequest → σ → Except ε HttpResponse × σ) (f : HttpRequest → HttpResponse)
    (h : ∀ r s, (performSt r s).1 = Except.ok (f r)) :
    ∀ (sched : List HttpRequest) (s : σ),
      (runSched performSt sched s).1 = sched.map (fun r => Except.ok (f r)) := by
  intro sched
  induction sched with
  | nil => intro s; rfl
  | cons r rs ih =>
    intro s
    have step : callSt performSt r s = performSt r s := callSt_eq performSt r s
    unfold runSched
    rw [step]
    have hfst := h r s
    rcases hres : performSt r s with ⟨x, s2⟩
    rw [hres] at hfst
    simp only [List.map]
    rw [ih s2]
    simp only at hfst
    rw [hfst]

/-- second sample request, distinct from `sampleReq`, used by the C9 witness. -/
def sampleReq2 : HttpRequest :=
  { method := "POST", uri := "https://auth.example/token",
    headers := [], body := [5, 5] }

/-- response keyed to a request (distinct body per request), used by the C9 witness. -/
def keyedResp (r : HttpRequest) : HttpResponse :=
  { status := 200, headers := [], body := r.body }

/-- shared stateful mock transport counting its invocations and answering each request
with the response keyed to it, used by the C9 witness. -/
def keyedPerform (r : HttpRequest) (s : Nat) : Except String HttpResponse × Nat :=
  (Except.ok (keyedResp r), s + 1)

/-- C9 witness: two interleaved calls over the shared counting transport each resolve to
the response keyed to their own request. -/
theorem concurrent_calls_no_cross_contamination_witness :
    (runSched keyedPerform [sampleReq, sampleReq2] 0).1 =
      [Except.ok (keyedResp sampleReq), Except.ok (keyedResp sampleReq2)] :=
  concurrent_calls_no_cross_contamination keyedPerform keyedResp
    (fun _ _ => rfl) [sampleReq, sampleReq2] 0
